import Mathlib

/-!
Verification of the avalanche-cms CLI identity client (Python) against its
natural-language specification.  The Python modules under `src/cli/av/` are
shallowly embedded below: pure helpers become Lean functions, the keyring
secret store becomes an explicit association list threaded through the
stateful operations, HTTP traffic becomes explicit request/response values,
and raising Python exceptions becomes `Except`.  Machine details that the
claims depend on (base64url, SHA-256, JWT payload decoding, JSON parsing,
Python truthiness of tuples) are embedded executably so that concrete runs
evaluate by `rfl`/`decide`.
-/

namespace AvalancheCMS

/-! ## Generic list and character utilities -/

/-- Python `str.split(sep)` on a single separator character, over `List Char`.
`splitOnChar '.' "a.b".data = [['a'], ['b']]`; an empty input gives `[[]]`. -/
def splitOnCharAux (sep : Char) : List Char → List Char → List (List Char)
  | [], acc => [acc.reverse]
  | c :: rest, acc =>
    if c = sep then acc.reverse :: splitOnCharAux sep rest []
    else splitOnCharAux sep rest (c :: acc)

def splitOnChar (sep : Char) (l : List Char) : List (List Char) :=
  splitOnCharAux sep l []

/-- Characters strictly before the first occurrence of `sep` (all of `l` if
`sep` does not occur). -/
def takeBefore (sep : Char) : List Char → List Char
  | [] => []
  | c :: rest => if c = sep then [] else c :: takeBefore sep rest

/-- Characters strictly after the first occurrence of `sep` (`[]` if `sep`
does not occur). -/
def dropThrough (sep : Char) : List Char → List Char
  | [] => []
  | c :: rest => if c = sep then rest else dropThrough sep rest

/-! ## 32-bit words as naturals

The Lean core bitwise operations on `Nat` are defined by well-founded
recursion and do not reduce definitionally, so the SHA-256 embedding uses its
own structurally recursive bitwise combinator over a 32-bit fuel. -/

def wordMask : Nat := 4294967296

/-- Combine the low `k` bits of `x` and `y` pointwise with `f`
(least-significant bit first); structural recursion on `k` so the kernel can
evaluate it. -/
def bitwiseW (f : Bool → Bool → Bool) : Nat → Nat → Nat → Nat
  | 0, _, _ => 0
  | k + 1, x, y =>
    (if f (x % 2 == 1) (y % 2 == 1) then 1 else 0) + 2 * bitwiseW f k (x / 2) (y / 2)

def xor32 (x y : Nat) : Nat := bitwiseW (fun a b => a != b) 32 x y

def and32 (x y : Nat) : Nat := bitwiseW (fun a b => a && b) 32 x y

def not32 (x : Nat) : Nat := 4294967295 - x % wordMask

/-- Right rotation of a 32-bit word: the two shifted parts do not overlap, so
plain division and multiplication express it without bitwise operations. -/
def rotr (n x : Nat) : Nat :=
  let y := x % wordMask
  y / 2 ^ n + y % 2 ^ n * 2 ^ (32 - n)

def shr (n x : Nat) : Nat := x % wordMask / 2 ^ n

/-! ## SHA-256 (hashlib.sha256), embedded executably -/

def sigmaSmall0 (x : Nat) : Nat := xor32 (xor32 (rotr 7 x) (rotr 18 x)) (shr 3 x)

def sigmaSmall1 (x : Nat) : Nat := xor32 (xor32 (rotr 17 x) (rotr 19 x)) (shr 10 x)

def sigmaBig0 (x : Nat) : Nat := xor32 (xor32 (rotr 2 x) (rotr 13 x)) (rotr 22 x)

def sigmaBig1 (x : Nat) : Nat := xor32 (xor32 (rotr 6 x) (rotr 11 x)) (rotr 25 x)

def chFn (e f g : Nat) : Nat := xor32 (and32 e f) (and32 (not32 e) g)

def majFn (a b c : Nat) : Nat := xor32 (xor32 (and32 a b) (and32 a c)) (and32 b c)

def shaK : List Nat :=
  [1116352408, 1899447441, 3049323471, 3921009573, 961987163,
   1508970993, 2453635748, 2870763221, 3624381080, 310598401,
   607225278, 1426881987, 1925078388, 2162078206, 2614888103,
   3248222580, 3835390401, 4022224774, 264347078, 604807628,
   770255983, 1249150122, 1555081692, 1996064986, 2554220882,
   2821834349, 2952996808, 3210313671, 3336571891, 3584528711,
   113926993, 338241895, 666307205, 773529912, 1294757372,
   1396182291, 1695183700, 1986661051, 2177026350, 2456956037,
   2730485921, 2820302411, 3259730800, 3345764771, 3516065817,
   3600352804, 4094571909, 275423344, 430227734, 506948616,
   659060556, 883997877, 958139571, 1322822218, 1537002063,
   1747873779, 1955562222, 2024104815, 2227730452, 2361852424,
   2428436474, 2756734187, 3204031479, 3329325298]

def shaH0 : List Nat :=
  [1779033703, 3144134277, 1013904242, 2773480762,
   1359893119, 2600822924, 528734635, 1541459225]

/-- Big-endian byte expansion of `n` into exactly `k` bytes. -/
def toBE : Nat → Nat → List Nat
  | 0, _ => []
  | k + 1, n => toBE k (n / 256) ++ [n % 256]

/-- SHA-256 message padding: append `0x80`, zero bytes up to 56 mod 64, and
the 64-bit big-endian bit length. -/
def shaPad (msg : List Nat) : List Nat :=
  let l := msg.length
  let zeros := (64 - (l + 9) % 64) % 64
  msg ++ [128] ++ List.replicate zeros 0 ++ toBE 8 (8 * l)

/-- Group bytes into big-endian 32-bit words (any trailing partial group is
dropped; the padded message length is a multiple of 4). -/
def bytesToWords : List Nat → List Nat
  | b1 :: b2 :: b3 :: b4 :: rest =>
    (((b1 * 256 + b2) * 256 + b3) * 256 + b4) :: bytesToWords rest
  | _ => []

/-- Extend the 16-word block to the 64-word message schedule; `k` counts the
words still to be appended. -/
def buildW : Nat → Array Nat → Array Nat
  | 0, ws => ws
  | k + 1, ws =>
    let n := ws.size
    let nw := (sigmaSmall1 (ws.getD (n - 2) 0) + ws.getD (n - 7) 0 +
               sigmaSmall0 (ws.getD (n - 15) 0) + ws.getD (n - 16) 0) % wordMask
    buildW k (ws.push nw)

/-- One round of the SHA-256 compression function on the eight-register
state. -/
def shaRound (st : List Nat) (kw : Nat × Nat) : List Nat :=
  match st with
  | [a, b, c, d, e, f, g, h] =>
    let t1 := (h + sigmaBig1 e + chFn e f g + kw.1 + kw.2) % wordMask
    let t2 := (sigmaBig0 a + majFn a b c) % wordMask
    [(t1 + t2) % wordMask, a, b, c, (d + t1) % wordMask, e, f, g]
  | other => other

def compressBlock (h : List Nat) (block : List Nat) : List Nat :=
  let w := buildW 48 block.toArray
  let st := (shaK.zip w.toList).foldl shaRound h
  (h.zip st).map (fun p => (p.1 + p.2) % wordMask)

/-- Process the message schedule words 16 at a time; the first argument is
fuel bounded by the word-list length. -/
def shaBlocks : Nat → List Nat → List Nat → List Nat
  | _, h, [] => h
  | 0, h, _ => h
  | fu + 1, h, ws => shaBlocks fu (compressBlock h (ws.take 16)) (ws.drop 16)

/-- SHA-256 digest of a byte string, as its 32 digest bytes.  Input bytes are
reduced mod 256 so the function is total on `List Nat`. -/
def sha256 (msg : List Nat) : List Nat :=
  let m := msg.map (fun b => b % 256)
  let ws := bytesToWords (shaPad m)
  ((shaBlocks ws.length shaH0 ws).map (toBE 4)).flatten

set_option maxRecDepth 100000 in
/-- FIPS 180-4 test vector anchoring the embedding: the digest of the three
bytes of the string abc. -/
theorem sha256_abc_vector :
    sha256 [97, 98, 99] =
      [186, 120, 22, 191, 143, 1, 207, 234, 65, 65, 64, 222, 93, 174, 34, 35,
       176, 3, 97, 163, 150, 23, 122, 156, 180, 16, 255, 97, 242, 0, 21, 173] := rfl

/-! ## base64url (base64.urlsafe_b64encode / urlsafe_b64decode) -/

def b64Alphabet : List Char :=
  "ABCDEFGHIJKLMNOPQRSTUVWXYZabcdefghijklmnopqrstuvwxyz0123456789-_".data

def b64CharOf (n : Nat) : Char := b64Alphabet.getD n 'A'

/-- Encode bytes to base64url characters, three bytes to four characters,
padding a final partial group with `=`. -/
def b64EncodeChunks : List Nat → List Char
  | [] => []
  | [b1] =>
    let x := b1 % 256
    [b64CharOf (x / 4), b64CharOf (x % 4 * 16), '=', '=']
  | [b1, b2] =>
    let x := b1 % 256
    let y := b2 % 256
    [b64CharOf (x / 4), b64CharOf (x % 4 * 16 + y / 16), b64CharOf (y % 16 * 4), '=']
  | b1 :: b2 :: b3 :: rest =>
    let x := b1 % 256
    let y := b2 % 256
    let z := b3 % 256
    [b64CharOf (x / 4), b64CharOf (x % 4 * 16 + y / 16),
     b64CharOf (y % 16 * 4 + z / 64), b64CharOf (z % 64)] ++ b64EncodeChunks rest

/-- Python `bytes.rstrip(b'=')`: remove the trailing run of `=` characters. -/
def rstripEq (l : List Char) : List Char :=
  (l.reverse.dropWhile (fun c => c = '=')).reverse

/-- auth.base64_url_encode: `base64.urlsafe_b64encode(data).rstrip(b'=')`. -/
def base64_url_encode (data : List Nat) : List Char :=
  rstripEq (b64EncodeChunks data)

/-- auth.generate_code_challenge / the challenge half of
login.generate_code_verifier_and_challenge: base64url of the SHA-256 digest
of the verifier bytes, with `=` padding stripped. -/
def generate_code_challenge (verifier : List Nat) : List Char :=
  base64_url_encode (sha256 verifier)

/-- Index of a character in the base64url alphabet. -/
def b64Index (c : Char) : Option Nat :=
  b64Alphabet.findIdx? (fun x => x = c)

/-- Decode a run of 6-bit values, four sextets to three bytes, with the
shortened final groups produced by stripped padding. -/
def b64DecodeGroups : List Nat → List Nat
  | [a, b] => [a * 4 + b / 16]
  | [a, b, c] => [a * 4 + b / 16, b % 16 * 16 + c / 4]
  | a :: b :: c :: d :: rest =>
    [a * 4 + b / 16, b % 16 * 16 + c / 4, c % 4 * 64 + d] ++ b64DecodeGroups rest
  | _ => []

def mapB64Index : List Char → Option (List Nat)
  | [] => some []
  | c :: rest =>
    match b64Index c, mapB64Index rest with
    | some v, some vs => some (v :: vs)
    | _, _ => none

/-- base64.urlsafe_b64decode on an already re-padded string: the total length
must be a multiple of four and every non-padding character must come from the
url-safe alphabet. -/
def b64urlDecode (l : List Char) : Option (List Nat) :=
  if l.length % 4 != 0 then none
  else
    match mapB64Index (l.takeWhile (fun c => c != '=')) with
    | none => none
    | some sextets => if sextets.length % 4 == 1 then none else some (b64DecodeGroups sextets)

end AvalancheCMS

namespace AvalancheCMS

def hexDigits : List Char := "0123456789abcdef".data

def byteHex (b : Nat) : List Char := [hexDigits.getD (b / 16) '0', hexDigits.getD (b % 16) '0']

def bytesHex (bs : List Nat) : String := String.mk ((bs.map byteHex).flatten)

/-! ## JSON values and a minimal executable JSON parser

json.loads on the decoded JWT payload and requests.Response.json() both
produce JSON values; the embedding parses objects, arrays, strings (with the
basic backslash escapes used by the payloads at hand), numbers, booleans and
null.  JSON numbers — integer, fraction and exponent parts as in the JSON
grammar — are embedded as exact rationals, since Python reads them as int or
float and both flow into `datetime.fromtimestamp` (the non-numeric NaN and
Infinity extensions json.loads also accepts are not modelled). -/

inductive Json where
  | null : Json
  | bool (b : Bool) : Json
  | num (q : ℚ) : Json
  | str (s : String) : Json
  | arr (elems : List Json) : Json
  | obj (fields : List (String × Json)) : Json
deriving Repr

/-- Field lookup on a JSON object, Python dict.get with default None. -/
def jsonGet (j : Json) (key : String) : Option Json :=
  match j with
  | .obj fields => fields.lookup key
  | _ => none

def lbraceChar : Char := Char.ofNat 123

def rbraceChar : Char := Char.ofNat 125

def isWsChar (c : Char) : Bool := c = ' ' || c = '\n' || c = '\t' || c = '\r'

def skipWs (l : List Char) : List Char := l.dropWhile isWsChar

def isDigitChar (c : Char) : Bool := '0' ≤ c && c ≤ '9'

def digitVal (c : Char) : Nat := c.toNat - 48

def natOfDigits (l : List Char) : Nat := l.foldl (fun acc c => acc * 10 + digitVal c) 0

/-- Resolve the optional exponent part of a JSON number against the value of
its mantissa. -/
def applyExpSigned (base : ℚ) (l : List Char) : Option (ℚ × List Char) :=
  let (negE, l1) :=
    match l with
    | '+' :: r => (false, r)
    | '-' :: r => (true, r)
    | _ => (false, l)
  let es := l1.takeWhile isDigitChar
  if es.isEmpty then none
  else
    let k := natOfDigits es
    some ((if negE then base / (10 : ℚ) ^ k else base * (10 : ℚ) ^ k),
          l1.dropWhile isDigitChar)

def applyExp (base : ℚ) : List Char → Option (ℚ × List Char)
  | 'e' :: rest => applyExpSigned base rest
  | 'E' :: rest => applyExpSigned base rest
  | l => some (base, l)

/-- Parse a JSON number — optional minus, integer part without leading
zeros, optional fraction, optional exponent — into an exact rational. -/
def parseJsonNumber (l : List Char) : Option (ℚ × List Char) :=
  let (neg, l1) :=
    match l with
    | '-' :: r => (true, r)
    | _ => (false, l)
  let ds := l1.takeWhile isDigitChar
  if ds.isEmpty then none
  else if 1 < ds.length && ds.headD '1' = '0' then none
  else
    let l2 := l1.dropWhile isDigitChar
    let signed := fun (b : ℚ) => if neg then -b else b
    match l2 with
    | '.' :: rest =>
      let fs := rest.takeWhile isDigitChar
      if fs.isEmpty then none
      else
        applyExp
          (signed ((natOfDigits ds : ℚ) + (natOfDigits fs : ℚ) / (10 : ℚ) ^ fs.length))
          (rest.dropWhile isDigitChar)
    | _ => applyExp (signed (natOfDigits ds : ℚ)) l2

/-- Scan a JSON string body up to the closing quote, resolving a backslash
escape to the escaped character itself (enough for quote and backslash). -/
def scanJsonString : List Char → Option (List Char × List Char)
  | [] => none
  | '\\' :: e :: rest =>
    match scanJsonString rest with
    | some (s, rem) => some (e :: s, rem)
    | none => none
  | '"' :: rest => some ([], rest)
  | c :: rest =>
    match scanJsonString rest with
    | some (s, rem) => some (c :: s, rem)
    | none => none

mutual

/-- Parse one JSON value; the fuel argument strictly decreases on every
nested value and is bounded by the input length. -/
def parseJsonV : Nat → List Char → Option (Json × List Char)
  | 0, _ => none
  | fuel + 1, l =>
    match skipWs l with
    | '"' :: rest =>
      match scanJsonString rest with
      | some (s, rem) => some (.str (String.mk s), rem)
      | none => none
    | 't' :: 'r' :: 'u' :: 'e' :: rest => some (.bool true, rest)
    | 'f' :: 'a' :: 'l' :: 's' :: 'e' :: rest => some (.bool false, rest)
    | 'n' :: 'u' :: 'l' :: 'l' :: rest => some (.null, rest)
    | '-' :: rest =>
      (match parseJsonNumber ('-' :: rest) with
       | some (q, rem) => some (.num q, rem)
       | none => none)
    | '[' :: rest =>
      (match skipWs rest with
       | ']' :: rem => some (.arr [], rem)
       | _ =>
         match parseJsonList fuel rest with
         | some (vs, rem) => some (.arr vs, rem)
         | none => none)
    | c :: rest =>
      if c = lbraceChar then
        match skipWs rest with
        | d :: rem =>
          if d = rbraceChar then some (.obj [], rem)
          else
            match parseJsonFields fuel rest with
            | some (fs, rem2) => some (.obj fs, rem2)
            | none => none
        | [] => none
      else if isDigitChar c then
        match parseJsonNumber (c :: rest) with
        | some (q, rem) => some (.num q, rem)
        | none => none
      else none
    | [] => none

/-- Parse a comma-separated list of values followed by a closing bracket. -/
def parseJsonList : Nat → List Char → Option (List Json × List Char)
  | 0, _ => none
  | fuel + 1, l =>
    match parseJsonV fuel l with
    | some (v, rest) =>
      (match skipWs rest with
       | ',' :: rem =>
         match parseJsonList fuel rem with
         | some (vs, rem2) => some (v :: vs, rem2)
         | none => none
       | ']' :: rem => some ([v], rem)
       | _ => none)
    | none => none

/-- Parse a comma-separated list of string-keyed fields followed by a closing
brace. -/
def parseJsonFields : Nat → List Char → Option (List (String × Json) × List Char)
  | 0, _ => none
  | fuel + 1, l =>
    match skipWs l with
    | '"' :: rest =>
      (match scanJsonString rest with
       | some (k, rem) =>
         (match skipWs rem with
          | ':' :: rem2 =>
            (match parseJsonV fuel rem2 with
             | some (v, rem3) =>
               (match skipWs rem3 with
                | ',' :: rem4 =>
                  (match parseJsonFields fuel rem4 with
                   | some (fs, rem5) => some ((String.mk k, v) :: fs, rem5)
                   | none => none)
                | d :: rem4 =>
                  if d = rbraceChar then some ([(String.mk k, v)], rem4) else none
                | [] => none)
             | none => none)
          | _ => none)
       | none => none)
    | _ => none

end

/-- json.loads: parse a complete JSON document with nothing but whitespace
after it. -/
def parseJson (l : List Char) : Option Json :=
  match parseJsonV (l.length + 1) l with
  | some (v, rest) => if (skipWs rest).isEmpty then some v else none
  | none => none

/-! ## Python exceptions, the keyring store, and token types
(src/cli/av/core/token.py) -/

/-- The Python exception kinds the token module can raise: `ValueError` from
its own checks, `jwt.exceptions.DecodeError` (not a `ValueError`) from JWT
decoding, and `TypeError` from `datetime.fromtimestamp` on a missing or
non-numeric `exp` claim. -/
inductive Exn where
  | valueError (msg : String) : Exn
  | decodeError (msg : String) : Exn
  | typeError (msg : String) : Exn
deriving DecidableEq, Repr

/-- class TokenType(Enum) with members ID, ACCESS, REFRESH. -/
inductive TokenType where
  | ID : TokenType
  | ACCESS : TokenType
  | REFRESH : TokenType
deriving DecidableEq, Repr

/-- Enum member .value. -/
def TokenType.val : TokenType → String
  | .ID => "id"
  | .ACCESS => "access"
  | .REFRESH => "refresh"

/-- Enum member .name, used to build the keyring key. -/
def TokenType.pyName : TokenType → String
  | .ID => "ID"
  | .ACCESS => "ACCESS"
  | .REFRESH => "REFRESH"

/-- The platform keyring, embedded as an association list from
(service, username) pairs to stored secrets; set prepends, get takes the
first match, delete removes every match. -/
abbrev Keyring := List ((String × String) × String)

def set_password (app key val : String) (kr : Keyring) : Keyring :=
  ((app, key), val) :: kr.filter (fun e => !(e.1 == (app, key)))

def get_password (app key : String) (kr : Keyring) : Option String :=
  (kr.find? (fun e => e.1 == (app, key))).map (fun e => e.2)

def delete_password (app key : String) (kr : Keyring) : Keyring :=
  kr.filter (fun e => !(e.1 == (app, key)))

def appName : String := "avalanchecli"

/-- The keyring username for a token type: `token_{TokenType.name}_jwt`. -/
def tokenKey (ty : TokenType) : String := "token_" ++ ty.pyName ++ "_jwt"

/-! ## JWT payload decoding

token.py calls `jwt.decode(encoded, options=dict(verify_signature=False))`,
which splits the compact JWT on `.`, re-pads and base64url-decodes the middle
segment, parses it as JSON, and requires the payload to be a JSON object;
signature bytes are never checked.  The spec describes exactly this
procedure (section 4.4), and auth.decode_jwt_payload in the repository is the
same algorithm inlined. -/

/-- Python `'=' * (-len(payload) % 4)` re-padding before base64url decode. -/
def rePad (l : List Char) : List Char :=
  l ++ List.replicate ((4 - l.length % 4) % 4) '='

/-- Token.decode_jwt: decoded JWT payload claims, or the raised exception. -/
def decode_jwt (encoded : String) : Except Exn (List (String × Json)) :=
  match splitOnChar '.' encoded.data with
  | [_, payload, _] =>
    match b64urlDecode (rePad payload) with
    | none => .error (.decodeError "Invalid payload padding")
    | some bytes =>
      match parseJson (bytes.map Char.ofNat) with
      | some (.obj fields) => .ok fields
      | some _ => .error (.decodeError "Invalid payload string: must be a json object")
      | none => .error (.decodeError "Invalid payload string")
  | _ => .error (.decodeError "Not enough segments")

/-- The smallest timestamp `datetime.fromtimestamp(_, tz=utc)` accepts:
0001-01-01T00:00:00Z. -/
def minTimestamp : ℚ := -62135596800

/-- The supremum of the timestamps fromtimestamp accepts: 10000-01-01Z;
the last representable instant is one microsecond below it. -/
def maxTimestamp : ℚ := 253402300800

/-- Token.get_expiration: `datetime.fromtimestamp(decoded_jwt.get("exp"), tz=utc)`
as an absolute instant in seconds.  fromtimestamp accepts any real number —
Python bool is a subclass of int, so a boolean exp is read as 1 or 0, and
float exps are accepted as-is — and raises `TypeError` when `.get` produced
None or a non-number (string, list, dict).  Timestamps outside datetime's
years 1..9999 raise (`ValueError`, or `OverflowError` for astronomically
large values; both are modelled as the out-of-range error).  Microsecond
rounding exactly at the upper boundary is not modelled. -/
def get_expiration (decoded : List (String × Json)) : Except Exn ℚ :=
  match decoded.lookup "exp" with
  | some (.num q) =>
    if minTimestamp ≤ q ∧ q < maxTimestamp then .ok q
    else .error (.valueError "year is out of range")
  | some (.bool b) => .ok (if b then 1 else 0)
  | _ => .error (.typeError "an integer is required")

/-- class Token: the in-memory credential value.  Instants are rationals in
seconds since the epoch (Python datetimes have microsecond resolution, a
subset of ℚ). -/
structure Token where
  encoded_jwt : String
  token_type : TokenType
  decoded_jwt : List (String × Json)
  expiration : ℚ

/-- Token.__init__ on the two-argument path every call site uses:
decode the payload, then derive the expiration; either step can raise. -/
def Token.mk? (encoded_jwt : String) (token_type : TokenType) : Except Exn Token :=
  match decode_jwt encoded_jwt with
  | .error e => .error e
  | .ok decoded =>
    match get_expiration decoded with
    | .error e => .error e
    | .ok exp => .ok ⟨encoded_jwt, token_type, decoded, exp⟩

/-- Token.is_expired: `now > expiration`. -/
def Token.is_expired (t : Token) (now : ℚ) : Bool := decide (now > t.expiration)

/-- Python `int(float)` truncation toward zero, on an exact rational. -/
def truncToZero (q : ℚ) : Int := Int.tdiv q.num (q.den : Int)

/-- Token.is_about_to_expire: the pair
`(delta < timedelta(seconds=threshold), int(delta.total_seconds()))`. -/
def Token.is_about_to_expire (t : Token) (threshold_secs : ℚ) (now : ℚ) : Bool × Int :=
  let delta := t.expiration - now
  (decide (delta < threshold_secs), truncToZero delta)

/-- Token.sec_until_expired / Token.get_expiration_secs: exact remaining
seconds. -/
def Token.sec_until_expired (t : Token) (now : ℚ) : ℚ := t.expiration - now

/-- Token.save: one keyring entry per (application, token-type) key, holding
only the opaque encoded JWT string. -/
def Token.save (t : Token) (kr : Keyring) : Keyring :=
  set_password appName (tokenKey t.token_type) t.encoded_jwt kr

/-- Token.clear: best-effort delete of all three token-type entries. -/
def Token.clear (kr : Keyring) : Keyring :=
  delete_password appName (tokenKey .REFRESH)
    (delete_password appName (tokenKey .ACCESS)
      (delete_password appName (tokenKey .ID) kr))

/-- Token.from_type: load a token type from the keyring.  A missing entry is
caught, clears the whole store and re-raises `ValueError` with the override
or default message; a present but undecodable entry raises from the
constructor outside the try block, without clearing. -/
def Token.from_type (token_type : TokenType) (alt_str : Option String) (kr : Keyring) :
    Except Exn Token × Keyring :=
  match get_password appName (tokenKey token_type) kr with
  | none =>
    (.error (.valueError (alt_str.getD "Token data incorrect. Log in and retry.")), Token.clear kr)
  | some enc =>
    match Token.mk? enc token_type with
    | .error e => (.error e, kr)
    | .ok t => (.ok t, kr)

/-- Token.from_jwt as invoked from Token.from_response: the argument is
`response_data.get(key)`, a JSON value or None; `jwt.decode` raises
`DecodeError` unless it is a string.  On success the token is saved when
requested. -/
def Token.from_jwt (encoded_jwt : Option Json) (token_type : TokenType) (save : Bool)
    (kr : Keyring) : Except Exn Token × Keyring :=
  match encoded_jwt with
  | some (.str enc) =>
    (match Token.mk? enc token_type with
     | .error e => (.error e, kr)
     | .ok t => (.ok t, if save then t.save kr else kr))
  | _ => (.error (.decodeError "Invalid token type. Token must be a string"), kr)

/-- An HTTP response as the token code observes it: status code, the
Content-Type header, and the parsed JSON body. -/
structure HttpResponse where
  status_code : Nat
  content_type : Option String
  body : Json

/-- Token.from_response: reject anything whose Content-Type is not
application/json, then construct and (when saving) persist the identity,
access and refresh tokens in that order from the response body; a failure on
any slot raises at that point, leaving earlier slots already saved. -/
def Token.from_response (response : HttpResponse) (save : Bool) (kr : Keyring) :
    Except Exn (Token × Token × Token) × Keyring :=
  if response.content_type != some "application/json" then
    (.error (.valueError "Response should be from a JSON 'requests.post'."), kr)
  else
    match response.body with
    | .obj fields =>
      let (r1, kr1) := Token.from_jwt (jsonGet (Json.obj fields) "id_token") .ID save kr
      (match r1 with
       | .error e => (.error e, kr1)
       | .ok idTok =>
         let (r2, kr2) := Token.from_jwt (jsonGet (Json.obj fields) "access_token") .ACCESS save kr1
         match r2 with
         | .error e => (.error e, kr2)
         | .ok accTok =>
           let (r3, kr3) := Token.from_jwt (jsonGet (Json.obj fields) "refresh_token") .REFRESH save kr2
           match r3 with
           | .error e => (.error e, kr3)
           | .ok refTok => (.ok (idTok, accTok, refTok), kr3))
    | _ => (.error (.typeError "response body has no attribute get"), kr)

/-! ## Token.refresh, Token.handle_error, and the Session Guard
(Token.require) -/

/-- One outbound form-encoded POST as the token module issues it. -/
structure PostRequest where
  url : String
  headers : List (String × String)
  payload : List (String × String)

def token_endpoint : String :=
  "http://localhost:8080/realms/avalanchecms/protocol/openid-connect/token"

/-- Token.refresh: load the stored Refresh token, POST the refresh grant
once, and on a 200 persist the response through Token.from_response
(save=True), returning `access_token is not None`; on any other status raise
`ValueError("Token refresh failed.")`.  The response of the single POST is
supplied by the environment; the returned list records the requests issued,
which is empty when the load fails and a singleton otherwise — the call is
never retried. -/
def Token.refresh (env : HttpResponse) (kr : Keyring) :
    Except Exn Bool × Keyring × List PostRequest :=
  let (r, kr1) := Token.from_type .REFRESH none kr
  match r with
  | .error e => (.error e, kr1, [])
  | .ok refresh_token =>
    let req : PostRequest :=
      ⟨token_endpoint,
       [("Content-Type", "application/x-www-form-urlencoded")],
       [("client_id", "avalanchecli"), ("grant_type", "refresh_token"),
        ("refresh_token", refresh_token.encoded_jwt)]⟩
    if env.status_code == 200 then
      let (rr, kr2) := Token.from_response env true kr1
      match rr with
      | .error e => (.error e, kr2, [req])
      | .ok (_, _, _) => (.ok true, kr2, [req])
    else
      (.error (.valueError "Token refresh failed."), kr1, [req])

/-- Token.handle_error: clear the whole store, echo one structured JSON error
object, and terminate via `sys.exit(1)`.  The result is the keyring after
clearing, the emitted messages, and the process exit status. -/
def Token.handle_error (exception : Exn) (alt_str : Option String) (kr : Keyring) :
    Keyring × List Json × Nat :=
  let kr1 := Token.clear kr
  let error_message :=
    match exception with
    | .valueError s => s
    | _ => alt_str.getD "Error occurred. Log in and retry."
  (kr1, [Json.obj [("error", Json.obj [("message", Json.str error_message)])]], 1)

/-- How one invocation of a guarded command ends: terminated through
Token.handle_error (`sys.exit`), died on an exception raised outside the
try block, or reached the wrapped operation with the token it was handed. -/
inductive GuardOutcome where
  | exited (kr : Keyring) (output : List Json) (code : Nat) : GuardOutcome
  | uncaught (e : Exn) (kr : Keyring) : GuardOutcome
  | proceeds (token : Token) (kr : Keyring) : GuardOutcome

/-- A guarded invocation together with the number of Token.refresh calls it
performed. -/
structure GuardRun where
  outcome : GuardOutcome
  refreshCalls : Nat

/-- Python truthiness of the pair returned by Token.is_about_to_expire: a
2-tuple is a non-empty tuple, hence always truthy, whatever its components. -/
def tupleTruthy (_ : Bool × Int) : Bool := true

/-- The wrapper's local `token` variable, mirrored as an option: Python binds
it to the result of Token.from_type, which never returns None (it raises
instead), so the `some` constructor is the only one ever produced. -/
def guardToken (t : Token) : Option Token := some t

/-- The branch `if token is None and token_type != TokenType.REFRESH` of
Token.require: re-derive a missing required token from a live Refresh token.
Returns the possibly replaced token, or the exception that escaped to the
enclosing try, with the updated keyring and the number of refresh calls. -/
def requireDerive (token_type : TokenType) (suppress_refresh : Bool) (now : ℚ)
    (env : HttpResponse) (tokenOpt : Option Token) (kr : Keyring) :
    Except Exn (Option Token) × Keyring × Nat :=
  if tokenOpt.isNone && !(token_type == .REFRESH) then
    let (rr, kr1) := Token.from_type .REFRESH none kr
    match rr with
    | .error e => (.error e, kr1, 0)
    | .ok refresh_token =>
      if !(refresh_token.is_expired now) && !suppress_refresh then
        let (res, kr2, _) := Token.refresh env kr1
        match res with
        | .error e => (.error e, kr2, 1)
        | .ok _ =>
          let (r2, kr3) := Token.from_type token_type none kr2
          match r2 with
          | .error e => (.error e, kr3, 1)
          | .ok t => (.ok (some t), kr3, 1)
      else (.ok tokenOpt, kr1, 0)
  else (.ok tokenOpt, kr, 0)

/-- The branch `if token and token.is_about_to_expire() and not
suppress_refresh` of Token.require.  The truthiness test on the tuple
returned by is_about_to_expire is the tuple's own truthiness, not its first
component. -/
def requireProactive (token_type : TokenType) (suppress_refresh : Bool) (now : ℚ)
    (env : HttpResponse) (tokenOpt : Option Token) (kr : Keyring) :
    Except Exn (Option Token) × Keyring × Nat :=
  match tokenOpt with
  | some token =>
    if tupleTruthy (token.is_about_to_expire 20 now) && !suppress_refresh then
      let (res, kr1, _) := Token.refresh env kr
      match res with
      | .error e => (.error e, kr1, 1)
      | .ok _ =>
        let (r2, kr2) := Token.from_type token_type none kr1
        match r2 with
        | .error e => (.error e, kr2, 1)
        | .ok t => (.ok (some t), kr2, 1)
    else (.ok tokenOpt, kr, 0)
  | none => (.ok tokenOpt, kr, 0)

/-- The code after the wrapper's try/except: hand over a distinct token type
when requested (this Token.from_type call sits outside the try, so its
exceptions are uncaught), then invoke the wrapped operation with the token. -/
def requireFinish (token_type : TokenType) (pass_type : Option TokenType) (token : Token)
    (kr : Keyring) (calls : Nat) : GuardRun :=
  match pass_type with
  | some pt =>
    if pt == token_type then ⟨.proceeds token kr, calls⟩
    else
      let (r, kr1) := Token.from_type pt none kr
      match r with
      | .error e => ⟨.uncaught e kr1, calls⟩
      | .ok t => ⟨.proceeds t kr1, calls⟩
  | none => ⟨.proceeds token kr, calls⟩

/-- Token.require: the Session Guard wrapper around one guarded command
invocation.  `now` is the current UTC time, `env` the response any refresh
POST would receive, `kr` the keyring at entry. -/
def Token.require (token_type : TokenType) (suppress_refresh : Bool)
    (pass_type : Option TokenType) (alt_str : Option String) (now : ℚ)
    (env : HttpResponse) (kr : Keyring) : GuardRun :=
  let (r0, kr0) := Token.from_type token_type alt_str kr
  match r0 with
  | .error e =>
    let (krE, out, code) := Token.handle_error e none kr0
    ⟨.exited krE out code, 0⟩
  | .ok token0 =>
    let tokenOpt := guardToken token0
    let (r1, kr1, calls1) := requireDerive token_type suppress_refresh now env tokenOpt kr0
    match r1 with
    | .error e =>
      let (krE, out, code) := Token.handle_error e none kr1
      ⟨.exited krE out code, calls1⟩
    | .ok tokenOpt1 =>
      let (r2, kr2, calls2) := requireProactive token_type suppress_refresh now env tokenOpt1 kr1
      match r2 with
      | .error e =>
        let (krE, out, code) := Token.handle_error e none kr2
        ⟨.exited krE out code, calls1 + calls2⟩
      | .ok tokenOpt2 =>
        match tokenOpt2 with
        | none =>
          let e := Exn.valueError (alt_str.getD "Token invalid. Log in and retry.")
          let (krE, out, code) := Token.handle_error e none kr2
          ⟨.exited krE out code, calls1 + calls2⟩
        | some token =>
          if token.is_expired now then
            let e := Exn.valueError (alt_str.getD "Token invalid. Log in and retry.")
            let (krE, out, code) := Token.handle_error e none kr2
            ⟨.exited krE out code, calls1 + calls2⟩
          else
            requireFinish token_type pass_type token kr2 (calls1 + calls2)

/-! ## The login command (src/cli/av/commands/login.py): redirect listener
handler and authorization-code exchange -/

/-- The registered redirect URI path: the CLI registers
`http://localhost:49200/avalanchecli/oidc/pkce/callback` with the provider. -/
def registeredCallbackPath : String := "/avalanchecli/oidc/pkce/callback"

/-- urllib.parse.urlparse restricted to what the handler uses: the path is
everything before the first `?` (with any `#` fragment cut off), the query is
everything between the first `?` and a `#`. -/
structure UrlParts where
  path : String
  query : String

def urlparse (request_target : String) : UrlParts :=
  let l := request_target.data
  ⟨String.mk (takeBefore '#' (takeBefore '?' l)),
   String.mk (takeBefore '#' (dropThrough '?' l))⟩

/-- urllib.parse.parse_qs lookup of one key: split the query on `&`, split
each field at its first `=`, drop fields with no `=` or an empty value, and
collect the values of the given key in order.  (Percent-decoding of values is
not modelled; the authorization codes at hand are plain.) -/
def parse_qs_values (query : String) (key : String) : List String :=
  (splitOnChar '&' query.data).filterMap (fun field =>
    let k := takeBefore '=' field
    let v := dropThrough '=' field
    if field.contains '=' && k == key.data && !v.isEmpty then some (String.mk v)
    else none)

/-- What one RedirectHandler.do_GET invocation does: the code it put into the
queue (if any), the response it sent (status, Content-Type, body), whether it
set the code-ready event, and whether it started a shutdown thread.  A
request the handler ignores produces no response at all. -/
structure GetEffect where
  queuePut : Option String
  responseStatus : Option Nat
  responseContentType : Option String
  responseBody : Option String
  eventSet : Bool
  shutdownThreadStarted : Bool
deriving DecidableEq, Repr

def noEffect : GetEffect := ⟨none, none, none, none, false, false⟩

def successBody : String := "Authentication successful. You can close this window."

def deliverEffect (code : String) : GetEffect :=
  ⟨some code, some 200, some "text/html", some successBody, true, true⟩

/-- RedirectHandler.do_GET from start_auth_server: act exactly when the
request path ends with `/callback` and parse_qs found a `code` parameter;
deliver the first code value, respond 200 text/html, set the event, and
shut the server down from a fresh thread.  Anything else falls through the
handler without a response. -/
def do_GET (request_target : String) : GetEffect :=
  let u := urlparse request_target
  if "/callback".data.isSuffixOf u.path.data then
    match parse_qs_values u.query "code" with
    | c :: _ => deliverEffect c
    | [] => noEffect
  else noEffect

/-- Claim lookup with Python dict.get's None default, for building the login
command's user info object. -/
def claimGet (claims : List (String × Json)) (key : String) : Json :=
  (claims.lookup key).getD .null

/-- The authorization-code exchange segment of the login command: once a code
has arrived, POST it (with the PKCE verifier) once, hand the response to
`Token.from_response(response, save=True)`, and on success build the
structured success object from the access token's claims.  There is no
try/except around this code: a failure inside from_response propagates out of
the command uncaught, after whatever slots were already saved.  The returned
request list records the single POST issued. -/
def loginExchange (authorization_code code_verifier : String) (response : HttpResponse)
    (kr : Keyring) : Except Exn Json × Keyring × List PostRequest :=
  let req : PostRequest :=
    ⟨token_endpoint, [],
     [("grant_type", "authorization_code"), ("client_id", "avalanchecli"),
      ("redirect_uri", "http://localhost:49200" ++ registeredCallbackPath),
      ("code", authorization_code), ("code_verifier", code_verifier)]⟩
  let (r, kr1) := Token.from_response response true kr
  match r with
  | .error e => (.error e, kr1, [req])
  | .ok (_, access_token, _) =>
    let user_info := Json.obj
      [("id", claimGet access_token.decoded_jwt "sub"),
       ("username", claimGet access_token.decoded_jwt "preferred_username"),
       ("email", claimGet access_token.decoded_jwt "email"),
       ("name", claimGet access_token.decoded_jwt "name")]
    (.ok (Json.obj [("user", user_info), ("message", Json.str "Login successful.")]), kr1, [req])

/-! ## Concrete token material for the ground-level runs -/

/-- base64url of the UTF-8 bytes of a string, padding stripped — how the
identity provider would encode a JWT segment. -/
def b64urlOfString (s : String) : String :=
  String.mk (base64_url_encode (s.data.map Char.toNat))

/-- A compact JWT around a given payload document; only the middle segment is
ever decoded by this client. -/
def mkJwt (payload : String) : String :=
  "hdr." ++ b64urlOfString payload ++ ".sig"

/-- A payload whose exp claim is the given integer. -/
def expPayload (n : Int) : String :=
  "\x7b\"exp\": " ++ toString n ++ "\x7d"

def jwtExp1000 : String := mkJwt (expPayload 1000)

def jwtExp5000 : String := mkJwt (expPayload 5000)

def jwtExp9000 : String := mkJwt (expPayload 9000)

/-- A payload with no exp claim at all. -/
def jwtNoExp : String := mkJwt "\x7b\"sub\": \"u1\"\x7d"

/-! ## Lemmas: base64url output alphabet -/

theorem b64CharOf_mem (n : Nat) : b64CharOf n ∈ b64Alphabet := by
  unfold b64CharOf List.getD
  cases h : b64Alphabet.get? n with
  | some c =>
    simp only [h, Option.getD_some]
    exact List.get?_mem h
  | none =>
    simp only [h, Option.getD_none]
    decide

/-- Every base64url encoding splits into a body drawn from the url-safe
alphabet followed by a run of padding characters. -/
theorem b64EncodeChunks_split (bs : List Nat) :
    ∃ main pad, b64EncodeChunks bs = main ++ pad ∧
      (∀ c ∈ main, c ∈ b64Alphabet) ∧ (∀ c ∈ pad, c = '=') := by
  match bs with
  | [] => exact ⟨[], [], rfl, by simp, by simp⟩
  | [b1] =>
    refine ⟨[b64CharOf (b1 % 256 / 4), b64CharOf (b1 % 256 % 4 * 16)], ['=', '='], rfl, ?_, ?_⟩
    · intro c hc
      simp only [List.mem_cons, List.not_mem_nil, or_false] at hc
      rcases hc with h | h <;> (subst h; exact b64CharOf_mem _)
    · intro c hc
      simp only [List.mem_cons, List.not_mem_nil, or_false] at hc
      rcases hc with h | h <;> exact h
  | [b1, b2] =>
    refine ⟨[b64CharOf (b1 % 256 / 4), b64CharOf (b1 % 256 % 4 * 16 + b2 % 256 / 16),
             b64CharOf (b2 % 256 % 16 * 4)], ['='], rfl, ?_, ?_⟩
    · intro c hc
      simp only [List.mem_cons, List.not_mem_nil, or_false] at hc
      rcases hc with h | h | h <;> (subst h; exact b64CharOf_mem _)
    · intro c hc
      simp only [List.mem_cons, List.not_mem_nil, or_false] at hc
      exact hc
  | b1 :: b2 :: b3 :: rest =>
    obtain ⟨main, pad, heq, hmain, hpad⟩ := b64EncodeChunks_split rest
    refine ⟨[b64CharOf (b1 % 256 / 4), b64CharOf (b1 % 256 % 4 * 16 + b2 % 256 / 16),
             b64CharOf (b2 % 256 % 16 * 4 + b3 % 256 / 64), b64CharOf (b3 % 256 % 64)] ++ main,
            pad, ?_, ?_, hpad⟩
    · show b64EncodeChunks (b1 :: b2 :: b3 :: rest) = _
      rw [b64EncodeChunks, heq]
      simp [List.append_assoc]
    · intro c hc
      simp only [List.mem_append, List.mem_cons, List.not_mem_nil, or_false] at hc
      rcases hc with (h | h | h | h) | h
      · subst h; exact b64CharOf_mem _
      · subst h; exact b64CharOf_mem _
      · subst h; exact b64CharOf_mem _
      · subst h; exact b64CharOf_mem _
      · exact hmain c h

theorem dropWhile_sat_append {p : Char → Bool} {l l₂ : List Char}
    (h : ∀ c ∈ l, p c = true) : (l ++ l₂).dropWhile p = l₂.dropWhile p := by
  induction l with
  | nil => rfl
  | cons c rest ih =>
    have hc : p c = true := h c (List.mem_cons_self c rest)
    simp only [List.cons_append, List.dropWhile_cons, hc, if_true]
    exact ih (fun d hd => h d (List.mem_cons_of_mem c hd))

theorem dropWhile_unsat {p : Char → Bool} {l : List Char}
    (h : ∀ c ∈ l, p c = false) : l.dropWhile p = l := by
  cases l with
  | nil => rfl
  | cons c rest =>
    have hc : p c = false := h c (List.mem_cons_self c rest)
    simp only [List.dropWhile_cons, hc]
    simp

/-- Stripping the trailing `=` run of `main ++ pad` recovers exactly `main`
when `main` is padding-free and `pad` is all padding. -/
theorem rstripEq_append (main pad : List Char)
    (hmain : ∀ c ∈ main, (c = '=' : Bool) = false)
    (hpad : ∀ c ∈ pad, ((c = '=' : Bool)) = true) :
    rstripEq (main ++ pad) = main := by
  unfold rstripEq
  rw [List.reverse_append]
  rw [dropWhile_sat_append (fun c hc => hpad c (List.mem_reverse.mp hc))]
  rw [dropWhile_unsat (fun c hc => hmain c (List.mem_reverse.mp hc))]
  exact List.reverse_reverse main

theorem base64_url_encode_chars (data : List Nat) :
    (∀ c ∈ base64_url_encode data, c ∈ b64Alphabet) := by
  obtain ⟨main, pad, heq, hmain, hpad⟩ := b64EncodeChunks_split data
  have hm : ∀ c ∈ main, (c = '=' : Bool) = false := by
    intro c hc
    have : c ∈ b64Alphabet := hmain c hc
    have hne : c ≠ '=' := by
      intro h; subst h; revert this; decide
    simp [hne]
  have hp : ∀ c ∈ pad, ((c = '=' : Bool)) = true := by
    intro c hc
    simp [hpad c hc]
  intro c hc
  unfold base64_url_encode at hc
  rw [heq, rstripEq_append main pad hm hp] at hc
  exact hmain c hc

/-- C5.  The PKCE challenge derivation is deterministic, equals
base64url(SHA-256(verifier)) with `=` padding stripped, and its output never
contains `=`, `+` or `/`. -/
theorem c5_code_challenge_pure_and_urlsafe (verifier : List Nat) :
    generate_code_challenge verifier = generate_code_challenge verifier ∧
    generate_code_challenge verifier = rstripEq (b64EncodeChunks (sha256 verifier)) ∧
    ∀ c ∈ generate_code_challenge verifier, c ≠ '=' ∧ c ≠ '+' ∧ c ≠ '/' := by
  refine ⟨rfl, rfl, ?_⟩
  intro c hc
  have halpha : c ∈ b64Alphabet := base64_url_encode_chars (sha256 verifier) c hc
  refine ⟨?_, ?_, ?_⟩ <;> intro h <;> subst h <;> revert halpha <;> decide

set_option maxRecDepth 100000 in
/-- Ground run of C5 at the empty verifier: SHA-256 of the empty byte string
encodes to a 43-character challenge whose first character is `4`. -/
theorem c5_code_challenge_witness :
    '4' ∈ generate_code_challenge [] ∧ '4' ≠ '=' ∧ '4' ≠ '+' ∧ '4' ≠ '/' :=
  ⟨by decide, (c5_code_challenge_pure_and_urlsafe []).2.2 '4' (by decide)⟩

/-! ## Lemmas: the keyring store -/

theorem find_filter_keep {α} (p q : α → Bool) (l : List α)
    (h : ∀ e, p e = true → q e = true) : (l.filter q).find? p = l.find? p := by
  induction l with
  | nil => rfl
  | cons e rest ih =>
    cases hq : q e with
    | true =>
      cases hp : p e with
      | true => simp [List.filter_cons, hq, List.find?, hp]
      | false => simp [List.filter_cons, hq, List.find?, hp, ih]
    | false =>
      have hp : p e = false := by
        cases hpe : p e with
        | true => exact absurd (h e hpe) (by simp [hq])
        | false => rfl
      simp [List.filter_cons, hq, List.find?, hp, ih]

theorem get_set_same (app key v : String) (kr : Keyring) :
    get_password app key (set_password app key v kr) = some v := by
  simp [get_password, set_password, List.find?]

theorem get_set_other (app key app' key' v : String) (kr : Keyring)
    (h : (app', key') ≠ (app, key)) :
    get_password app' key' (set_password app key v kr) = get_password app' key' kr := by
  unfold get_password set_password
  have hne : (((app, key), v).1 == (app', key')) = false := by
    rw [beq_eq_false_iff_ne]
    exact fun contra => h contra.symm
  simp only [List.find?, hne]
  rw [find_filter_keep]
  intro e he
  have he1 : e.1 = (app', key') := eq_of_beq he
  rw [he1]
  have hf : ((app', key') == (app, key)) = false := by
    rw [beq_eq_false_iff_ne]
    exact h
  simp [hf]

theorem find_filter_out {α} (p : α → Bool) (l : List α) :
    (l.filter (fun e => !(p e))).find? p = none := by
  induction l with
  | nil => rfl
  | cons e rest ih =>
    cases hp : p e with
    | true => simp [List.filter_cons, hp, ih]
    | false => simp [List.filter_cons, hp, List.find?, ih]

theorem get_delete_same (app key : String) (kr : Keyring) :
    get_password app key (delete_password app key kr) = none := by
  unfold get_password delete_password
  rw [find_filter_out]
  rfl

theorem find_filter_none {α} (p q : α → Bool) (l : List α)
    (h : l.find? p = none) : (l.filter q).find? p = none := by
  induction l with
  | nil => rfl
  | cons e rest ih =>
    cases hp : p e with
    | true => simp [List.find?, hp] at h
    | false =>
      simp only [List.find?, hp] at h
      cases hq : q e with
      | true => simp [List.filter_cons, hq, List.find?, hp, ih h]
      | false => simp [List.filter_cons, hq, ih h]

theorem get_delete_none (app key app' key' : String) (kr : Keyring)
    (h : get_password app key kr = none) :
    get_password app key (delete_password app' key' kr) = none := by
  unfold get_password delete_password
  unfold get_password at h
  have hf : kr.find? (fun e => e.1 == (app, key)) = none := by
    cases hfind : kr.find? (fun e => e.1 == (app, key)) with
    | none => rfl
    | some e => rw [hfind] at h; simp at h
  rw [find_filter_none _ _ _ hf]
  rfl

/-- After Token.clear, every token-type keyring entry is absent. -/
theorem get_clear (ty : TokenType) (kr : Keyring) :
    get_password appName (tokenKey ty) (Token.clear kr) = none := by
  unfold Token.clear
  cases ty with
  | ID =>
    apply get_delete_none
    apply get_delete_none
    exact get_delete_same _ _ _
  | ACCESS =>
    apply get_delete_none
    exact get_delete_same _ _ _
  | REFRESH => exact get_delete_same _ _ _

/-- Computation rule for Token.from_type when the keyring has the entry. -/
theorem from_type_of_get (ty : TokenType) (alt : Option String) (kr : Keyring) (enc : String)
    (hget : get_password appName (tokenKey ty) kr = some enc) :
    Token.from_type ty alt kr =
      (match Token.mk? enc ty with
       | .error e => (.error e, kr)
       | .ok t => (.ok t, kr)) := by
  unfold Token.from_type
  rw [hget]

/-- Computation rule for Token.from_type when the keyring entry is missing:
the store is cleared and a ValueError is raised. -/
theorem from_type_of_get_none (ty : TokenType) (alt : Option String) (kr : Keyring)
    (hget : get_password appName (tokenKey ty) kr = none) :
    Token.from_type ty alt kr =
      (.error (.valueError (alt.getD "Token data incorrect. Log in and retry.")),
       Token.clear kr) := by
  unfold Token.from_type
  rw [hget]

/-! ## The claims about the token model -/

/-- C7.  is_expired is true exactly when the current UTC time is past the
expiration instant; is_about_to_expire pairs the comparison of the remaining
time against the threshold with the remaining whole seconds; a token
expiring in one hour reports (false, 3600) under the default threshold 20,
and one expiring in the past reports expired. -/
theorem c7_expiry_predicates (t : Token) (now threshold : ℚ) :
    (t.is_expired now = true ↔ t.expiration < now) ∧
    ((t.is_about_to_expire threshold now).1 = true ↔ t.expiration - now < threshold) ∧
    (t.is_about_to_expire threshold now).2 = truncToZero (t.expiration - now) ∧
    (t.expiration = now + 3600 →
      t.is_expired now = false ∧ t.is_about_to_expire 20 now = (false, 3600)) ∧
    (t.expiration < now → t.is_expired now = true) := by
  refine ⟨by simp [Token.is_expired, gt_iff_lt], by simp [Token.is_about_to_expire], rfl,
    ?_, ?_⟩
  · intro h
    constructor
    · simp only [Token.is_expired, h, decide_eq_false_iff_not]
      intro hlt
      linarith
    · have hd : t.expiration - now = (3600 : ℚ) := by rw [h]; ring
      simp only [Token.is_about_to_expire, hd]
      norm_num [truncToZero]
  · intro h
    simp only [Token.is_expired, decide_eq_true_iff]
    linarith

def jwtExp3600 : String := mkJwt (expPayload 3600)

/-- A concrete access token whose exp claim is 3600 seconds past the
epoch. -/
def tok3600 : Token := ⟨jwtExp3600, .ACCESS, [("exp", .num 3600)], 3600⟩

/-- Ground run of C7: at now = 0, tok3600 is neither expired nor near
expiry and reports 3600 whole seconds remaining; at now = 7200 it is
expired. -/
theorem c7_expiry_witness :
    (tok3600.is_expired 0 = false ∧ tok3600.is_about_to_expire 20 0 = (false, 3600)) ∧
    tok3600.is_expired 7200 = true :=
  ⟨(c7_expiry_predicates tok3600 0 20).2.2.2.1 (by norm_num [tok3600]),
   (c7_expiry_predicates tok3600 7200 20).2.2.2.2 (by norm_num [tok3600])⟩

/-- C8.  Token construction fails (raises) on every payload whose exp claim
is not parseable by fromtimestamp — missing, null, string, array or object
(TypeError), or a number outside datetime's representable years
(ValueError) — and on every payload with a parseable exp claim it succeeds
with the expiration instant derived deterministically from claims exp: a
numeric exp in range yields exactly that instant, and a boolean exp is read
as the integer 1 or 0, because Python bool is a subclass of int. -/
theorem c8_exp_claim_construction (enc : String) (ty : TokenType)
    (claims : List (String × Json)) (h : decode_jwt enc = .ok claims) :
    ((claims.lookup "exp" = none ∨ claims.lookup "exp" = some .null ∨
      (∃ s, claims.lookup "exp" = some (.str s)) ∨
      (∃ l, claims.lookup "exp" = some (.arr l)) ∨
      (∃ f, claims.lookup "exp" = some (.obj f))) →
      (Token.mk? enc ty).isOk = false) ∧
    (∀ q : ℚ, claims.lookup "exp" = some (.num q) →
      ¬(minTimestamp ≤ q ∧ q < maxTimestamp) → (Token.mk? enc ty).isOk = false) ∧
    (∀ q : ℚ, claims.lookup "exp" = some (.num q) →
      minTimestamp ≤ q → q < maxTimestamp →
      Token.mk? enc ty = .ok ⟨enc, ty, claims, q⟩) ∧
    (∀ b : Bool, claims.lookup "exp" = some (.bool b) →
      Token.mk? enc ty = .ok ⟨enc, ty, claims, if b then 1 else 0⟩) := by
  refine ⟨?_, ?_, ?_, ?_⟩
  · intro hno
    have hexp : get_expiration claims = .error (.typeError "an integer is required") := by
      unfold get_expiration
      rcases hno with hl | hl | ⟨s, hl⟩ | ⟨l, hl⟩ | ⟨f, hl⟩ <;> rw [hl]
    simp only [Token.mk?, h, hexp]
    rfl
  · intro q hl hrange
    have hexp : get_expiration claims = .error (.valueError "year is out of range") := by
      unfold get_expiration
      rw [hl]
      exact if_neg hrange
    simp only [Token.mk?, h, hexp]
    rfl
  · intro q hl h1 h2
    have hexp : get_expiration claims = .ok q := by
      unfold get_expiration
      rw [hl]
      exact if_pos ⟨h1, h2⟩
    simp [Token.mk?, h, hexp]
  · intro b hl
    have hexp : get_expiration claims = .ok (if b then 1 else 0) := by
      unfold get_expiration
      rw [hl]
    simp [Token.mk?, h, hexp]

/-- A payload whose exp claim is the JSON boolean true — the program reads
it as the integer 1. -/
def jwtExpTrue : String := mkJwt "\x7b\"exp\": true\x7d"

/-- Ground run of C8: a JWT whose payload has no exp claim fails
construction, one with exp = 1000 constructs a token expiring at instant
1000, and one with exp = true constructs a token expiring at instant 1. -/
theorem c8_exp_claim_witness :
    (Token.mk? jwtNoExp .ACCESS).isOk = false ∧
    Token.mk? jwtExp1000 .ACCESS = .ok ⟨jwtExp1000, .ACCESS, [("exp", .num 1000)], 1000⟩ ∧
    Token.mk? jwtExpTrue .ACCESS = .ok ⟨jwtExpTrue, .ACCESS, [("exp", .bool true)], 1⟩ :=
  ⟨(c8_exp_claim_construction jwtNoExp .ACCESS [("sub", .str "u1")] rfl).1 (Or.inl rfl),
   (c8_exp_claim_construction jwtExp1000 .ACCESS [("exp", .num 1000)] rfl).2.2.1 1000 rfl
     (by decide) (by decide),
   (c8_exp_claim_construction jwtExpTrue .ACCESS [("exp", .bool true)] rfl).2.2.2 true rfl⟩

/-- C9.  Saving a token writes exactly one (application, token-type) keyring
entry holding the opaque encoded JWT, leaves every other entry unchanged,
and loading that type back rebuilds the very same token — same encoded
string, claims and expiration — through the construction decoding path. -/
theorem c9_store_round_trip (enc : String) (ty : TokenType) (kr : Keyring)
    (t : Token) (alt : Option String) (h : Token.mk? enc ty = .ok t) :
    Token.from_type ty alt (t.save kr) = (.ok t, t.save kr) ∧
    get_password appName (tokenKey ty) (t.save kr) = some t.encoded_jwt ∧
    ∀ app key, (app, key) ≠ (appName, tokenKey ty) →
      get_password app key (t.save kr) = get_password app key kr := by
  have hfields : t.encoded_jwt = enc ∧ t.token_type = ty := by
    unfold Token.mk? at h
    split at h
    · exact absurd h (by simp)
    · split at h
      · exact absurd h (by simp)
      · cases h
        exact ⟨rfl, rfl⟩
  obtain ⟨henc, hty⟩ := hfields
  have hsave : t.save kr = set_password appName (tokenKey ty) enc kr := by
    unfold Token.save
    rw [henc, hty]
  refine ⟨?_, ?_, ?_⟩
  · have hget : get_password appName (tokenKey ty) (t.save kr) = some enc := by
      rw [hsave]
      exact get_set_same _ _ _ _
    rw [from_type_of_get ty alt _ enc hget, h]
  · rw [hsave, get_set_same, henc]
  · intro app key hne
    rw [hsave]
    exact get_set_other _ _ _ _ _ _ hne

/-- Ground run of C9: saving the exp-1000 access token into the empty store
and loading ACCESS back returns the identical token. -/
theorem c9_store_round_trip_witness :
    Token.from_type .ACCESS none
        ((⟨jwtExp1000, .ACCESS, [("exp", .num 1000)], 1000⟩ : Token).save []) =
      (.ok ⟨jwtExp1000, .ACCESS, [("exp", .num 1000)], 1000⟩,
       (⟨jwtExp1000, .ACCESS, [("exp", .num 1000)], 1000⟩ : Token).save []) :=
  (c9_store_round_trip jwtExp1000 .ACCESS [] _ none rfl).1

/-- C2.  Token.handle_error clears all three token-type entries — every
subsequent load of any type fails — emits exactly one structured error
object, and exits the process with status 1. -/
theorem c2_handle_error_clears_and_exits (e : Exn) (alt : Option String) (kr : Keyring) :
    (∀ ty : TokenType,
      get_password appName (tokenKey ty) (Token.handle_error e alt kr).1 = none) ∧
    (∀ (ty : TokenType) (alt2 : Option String),
      ((Token.from_type ty alt2 (Token.handle_error e alt kr).1).1).isOk = false) ∧
    (Token.handle_error e alt kr).2.1.length = 1 ∧
    (Token.handle_error e alt kr).2.2 = 1 := by
  have hkr : (Token.handle_error e alt kr).1 = Token.clear kr := rfl
  refine ⟨?_, ?_, rfl, rfl⟩
  · intro ty
    rw [hkr]
    exact get_clear ty kr
  · intro ty alt2
    rw [hkr]
    rw [from_type_of_get_none ty alt2 _ (get_clear ty kr)]
    rfl

/-! ## Concrete guarded runs (claims C1 and C10) -/

/-- Observation: the exit status when the run ended through
Token.handle_error. -/
def GuardRun.exitStatus (r : GuardRun) : Option Nat :=
  match r.outcome with
  | .exited _ _ c => some c
  | _ => none

/-- Observation: whether the wrapped operation was reached. -/
def GuardRun.proceeded (r : GuardRun) : Bool :=
  match r.outcome with
  | .proceeds _ _ => true
  | _ => false

/-- Observation: the keyring at the end of the run. -/
def GuardRun.finalKeyring (r : GuardRun) : Keyring :=
  match r.outcome with
  | .exited kr _ _ => kr
  | .uncaught _ kr => kr
  | .proceeds _ kr => kr

/-- A fully logged-in store: all three token types present, expiring at
instant 9000. -/
def krFull : Keyring :=
  [((appName, tokenKey .ID), jwtExp9000),
   ((appName, tokenKey .ACCESS), jwtExp9000),
   ((appName, tokenKey .REFRESH), jwtExp9000)]

/-- A store holding only a Refresh token expiring at instant 9000. -/
def krRefreshOnly : Keyring := [((appName, tokenKey .REFRESH), jwtExp9000)]

/-- A token-endpoint success response rotating all three tokens to
exp = 5000. -/
def envOK : HttpResponse :=
  ⟨200, some "application/json",
   Json.obj [("id_token", .str jwtExp5000), ("access_token", .str jwtExp5000),
             ("refresh_token", .str jwtExp5000)]⟩

def refTok9000 : Token := ⟨jwtExp9000, .REFRESH, [("exp", .num 9000)], 9000⟩

def accTok9000 : Token := ⟨jwtExp9000, .ACCESS, [("exp", .num 9000)], 9000⟩

/-- The wrapper's missing-token derivation branch is dead code: the local
token is the result of a successful Token.from_type and is never None, so
requireDerive always falls through unchanged with zero refresh calls. -/
theorem requireDerive_dead (ty : TokenType) (sup : Bool) (now : ℚ) (env : HttpResponse)
    (t : Token) (kr : Keyring) :
    requireDerive ty sup now env (guardToken t) kr = (.ok (some t), kr, 0) := rfl

/-- With auto-refresh not suppressed, the proactive branch always performs
exactly one refresh call, whatever the token's remaining lifetime: the
truthiness test is on the tuple returned by is_about_to_expire, and a
2-tuple is always truthy. -/
theorem requireProactive_always_refreshes (ty : TokenType) (now : ℚ) (env : HttpResponse)
    (t : Token) (kr : Keyring) :
    (requireProactive ty false now env (some t) kr).2.2 = 1 := by
  unfold requireProactive
  rcases hr : Token.refresh env kr with ⟨res, kr1, reqs⟩
  cases res with
  | error e => rfl
  | ok b =>
    rcases hf : Token.from_type ty none kr1 with ⟨r2, kr2⟩
    simp only [hf]
    cases r2 with
    | error e => rfl
    | ok t2 => rfl

/-- C1.  Against the claim: when the required type's store entry is missing
and a live, unexpired Refresh token is present with auto-refresh allowed,
the guard does not derive the token via refresh — Token.from_type raises on
the missing entry, the wrapper's None-check branch is unreachable, and the
invocation exits through Token.handle_error with zero refresh calls. -/
theorem c1_missing_token_not_derived :
    (∀ (ty : TokenType) (sup : Bool) (now : ℚ) (env : HttpResponse) (t : Token) (kr : Keyring),
      requireDerive ty sup now env (guardToken t) kr = (.ok (some t), kr, 0)) ∧
    Token.mk? jwtExp9000 .REFRESH = .ok refTok9000 ∧
    refTok9000.is_expired 0 = false ∧
    (Token.require .ACCESS false none none 0 envOK krRefreshOnly).refreshCalls = 0 ∧
    (Token.require .ACCESS false none none 0 envOK krRefreshOnly).exitStatus = some 1 ∧
    (Token.require .ACCESS false none none 0 envOK krRefreshOnly).proceeded = false :=
  ⟨requireDerive_dead, rfl, rfl, rfl, rfl, rfl⟩

/-- C10.  Against the claim: a guarded invocation whose loaded token is
present, unexpired and far from expiry still performs one refresh call when
refresh is not suppressed, because the near-expiry test is the truthiness of
the tuple returned by is_about_to_expire. -/
theorem c10_guard_refreshes_fresh_token :
    (∀ (ty : TokenType) (now : ℚ) (env : HttpResponse) (t : Token) (kr : Keyring),
      (requireProactive ty false now env (some t) kr).2.2 = 1) ∧
    Token.mk? jwtExp9000 .ACCESS = .ok accTok9000 ∧
    accTok9000.is_expired 0 = false ∧
    (accTok9000.is_about_to_expire 20 0).1 = false ∧
    (Token.require .ACCESS false none none 0 envOK krFull).refreshCalls = 1 :=
  ⟨requireProactive_always_refreshes, rfl, rfl, by norm_num [accTok9000, Token.is_about_to_expire], rfl⟩

/-! ## Computation lemmas for Token.from_response -/

theorem from_response_not_json (resp : HttpResponse) (save : Bool) (kr : Keyring)
    (h : resp.content_type ≠ some "application/json") :
    Token.from_response resp save kr =
      (.error (.valueError "Response should be from a JSON 'requests.post'."), kr) := by
  unfold Token.from_response
  have hb : (resp.content_type != some "application/json") = true := by
    simpa using h
  rw [hb]
  simp

theorem from_response_id_then_missing_access (resp : HttpResponse) (kr : Keyring)
    (f : List (String × Json)) (encI : String) (tI : Token)
    (hct : resp.content_type = some "application/json") (hbody : resp.body = .obj f)
    (hI : f.lookup "id_token" = some (.str encI)) (hmkI : Token.mk? encI .ID = .ok tI)
    (hA : f.lookup "access_token" = none) :
    Token.from_response resp true kr =
      (.error (.decodeError "Invalid token type. Token must be a string"), tI.save kr) := by
  unfold Token.from_response
  rw [hct, hbody]
  simp only [bne_self_eq_false, Bool.false_eq_true, if_false]
  simp only [Token.from_jwt, jsonGet, hI, hA, hmkI]
  simp

theorem from_response_all_ok (resp : HttpResponse) (kr : Keyring)
    (f : List (String × Json)) (encI encA encR : String) (tI tA tR : Token)
    (hct : resp.content_type = some "application/json") (hbody : resp.body = .obj f)
    (hI : f.lookup "id_token" = some (.str encI)) (hmkI : Token.mk? encI .ID = .ok tI)
    (hA : f.lookup "access_token" = some (.str encA)) (hmkA : Token.mk? encA .ACCESS = .ok tA)
    (hR : f.lookup "refresh_token" = some (.str encR)) (hmkR : Token.mk? encR .REFRESH = .ok tR) :
    Token.from_response resp true kr = (.ok (tI, tA, tR), tR.save (tA.save (tI.save kr))) := by
  unfold Token.from_response
  rw [hct, hbody]
  simp only [bne_self_eq_false, Bool.false_eq_true, if_false]
  simp only [Token.from_jwt, jsonGet, hI, hA, hR, hmkI, hmkA, hmkR]
  simp

/-! ## Claim C3: Token.refresh -/

/-- The refresh store: only a Refresh token, expiring at 9000. -/
def kr3 : Keyring := [((appName, tokenKey .REFRESH), jwtExp9000)]

/-- A 200 token-endpoint response whose body has access and refresh slots
but no id_token slot. -/
def respNoId : HttpResponse :=
  ⟨200, some "application/json",
   Json.obj [("access_token", .str jwtExp5000), ("refresh_token", .str jwtExp5000)]⟩

/-- C3 counterexample.  A 200 response carrying only the access and refresh
slots: the claim demands that both present slots be persisted, the absent
identity slot left unchanged, and true returned — but Token.refresh raises a
decode error on the absent id_token (the code decodes the identity slot
first and `jwt.decode(None)` raises), persists nothing, and does not return
true. -/
theorem c3_counterexample_missing_slot :
    respNoId.status_code = 200 ∧
    (Token.refresh respNoId kr3).1 =
      .error (.decodeError "Invalid token type. Token must be a string") ∧
    (Token.refresh respNoId kr3).1 ≠ .ok true ∧
    get_password appName (tokenKey .ACCESS) (Token.refresh respNoId kr3).2.1 = none := by
  refine ⟨rfl, rfl, ?_, rfl⟩
  intro h
  exact Except.noConfusion h

/-- C3 as amended.  Token.refresh loads the stored Refresh token and issues
exactly one POST of grant_type=refresh_token with refresh_token and
client_id; on a 200 application/json response whose body carries all three
slots as decodable JWT strings it persists all three (identity, access,
refresh in order) and returns true; on a 200 response missing any slot it
raises rather than leaving absent slots unchanged; on any non-200 response
it raises RefreshFailed with the store untouched and no retry. -/
theorem c3_refresh_amended (kr : Keyring) (resp : HttpResponse) (encR0 : String) (tR0 : Token)
    (hload : get_password appName (tokenKey .REFRESH) kr = some encR0)
    (hmk : Token.mk? encR0 .REFRESH = .ok tR0) :
    (Token.refresh resp kr).2.2 =
      [⟨token_endpoint, [("Content-Type", "application/x-www-form-urlencoded")],
        [("client_id", "avalanchecli"), ("grant_type", "refresh_token"),
         ("refresh_token", tR0.encoded_jwt)]⟩] ∧
    (resp.status_code ≠ 200 →
      (Token.refresh resp kr).1 = .error (.valueError "Token refresh failed.") ∧
      (Token.refresh resp kr).2.1 = kr) ∧
    (∀ f encI encA encR tI tA tR,
      resp.status_code = 200 → resp.content_type = some "application/json" →
      resp.body = .obj f →
      f.lookup "id_token" = some (.str encI) → Token.mk? encI .ID = .ok tI →
      f.lookup "access_token" = some (.str encA) → Token.mk? encA .ACCESS = .ok tA →
      f.lookup "refresh_token" = some (.str encR) → Token.mk? encR .REFRESH = .ok tR →
      (Token.refresh resp kr).1 = .ok true ∧
      (Token.refresh resp kr).2.1 = tR.save (tA.save (tI.save kr))) := by
  have hft : Token.from_type .REFRESH none kr = (.ok tR0, kr) := by
    rw [from_type_of_get _ _ _ _ hload, hmk]
  refine ⟨?_, ?_, ?_⟩
  · simp only [Token.refresh, hft]
    cases hs : (resp.status_code == 200) with
    | false => rfl
    | true =>
      rcases hfr : Token.from_response resp true kr with ⟨rr, kr2⟩
      simp only [hfr]
      cases rr with
      | error e => rfl
      | ok trip => rfl
  · intro hne
    have hs : (resp.status_code == 200) = false := by
      simpa using hne
    simp only [Token.refresh, hft, hs]
    exact ⟨rfl, rfl⟩
  · intro f encI encA encR tI tA tR hstat hct hbody hI hmkI hA hmkA hR hmkR
    have hs : (resp.status_code == 200) = true := by
      simp [hstat]
    simp only [Token.refresh, hft, hs]
    rw [from_response_all_ok resp kr f encI encA encR tI tA tR hct hbody hI hmkI hA hmkA hR hmkR]
    exact ⟨rfl, rfl⟩

/-- A 200 response rotating all three slots. -/
def respFull : HttpResponse :=
  ⟨200, some "application/json",
   Json.obj [("id_token", .str jwtExp5000), ("access_token", .str jwtExp5000),
             ("refresh_token", .str jwtExp5000)]⟩

/-- A 401 response from the token endpoint. -/
def resp401 : HttpResponse := ⟨401, some "application/json", Json.obj []⟩

def idTok5000 : Token := ⟨jwtExp5000, .ID, [("exp", .num 5000)], 5000⟩

def accTok5000 : Token := ⟨jwtExp5000, .ACCESS, [("exp", .num 5000)], 5000⟩

def refTok5000 : Token := ⟨jwtExp5000, .REFRESH, [("exp", .num 5000)], 5000⟩

/-- Ground run of the amended C3: a full 200 rotation succeeds with true and
persists all three slots; a 401 fails with RefreshFailed leaving the store
unchanged. -/
theorem c3_refresh_amended_witness :
    (Token.refresh respFull kr3).1 = .ok true ∧
    (Token.refresh resp401 kr3).1 = .error (.valueError "Token refresh failed.") ∧
    (Token.refresh resp401 kr3).2.1 = kr3 :=
  ⟨((c3_refresh_amended kr3 respFull jwtExp9000 refTok9000 rfl rfl).2.2
      [("id_token", .str jwtExp5000), ("access_token", .str jwtExp5000),
       ("refresh_token", .str jwtExp5000)]
      jwtExp5000 jwtExp5000 jwtExp5000 idTok5000 accTok5000 refTok5000
      rfl rfl rfl rfl rfl rfl rfl rfl rfl).1,
   ((c3_refresh_amended kr3 resp401 jwtExp9000 refTok9000 rfl rfl).2.1 (by decide)).1,
   ((c3_refresh_amended kr3 resp401 jwtExp9000 refTok9000 rfl rfl).2.1 (by decide)).2⟩

/-! ## Claim C4: the login code exchange -/

/-- A 200 application/json exchange response carrying a valid id_token but
no access_token field. -/
def respIdOnly : HttpResponse :=
  ⟨200, some "application/json", Json.obj [("id_token", .str jwtExp5000)]⟩

/-- A 400 exchange response that nevertheless carries all three token
fields. -/
def resp400Full : HttpResponse :=
  ⟨400, some "application/json",
   Json.obj [("id_token", .str jwtExp5000), ("access_token", .str jwtExp5000),
             ("refresh_token", .str jwtExp5000)]⟩

/-- C4 counterexample.  Two concrete exchanges: (a) a 200 response whose
body has a valid id_token but no access_token makes the attempt fail, yet
leaves exactly the Identity entry persisted — a strict subset of the three
store entries survives into the next invocation; (b) a response with
non-success status 400 but a JSON body carrying all three fields is
processed as a success — the status is never inspected. -/
theorem c4_counterexample_partial_persist :
    ((loginExchange "code1" "ver1" respIdOnly []).1).isOk = false ∧
    get_password appName (tokenKey .ID) (loginExchange "code1" "ver1" respIdOnly []).2.1 =
      some jwtExp5000 ∧
    get_password appName (tokenKey .ACCESS) (loginExchange "code1" "ver1" respIdOnly []).2.1 =
      none ∧
    get_password appName (tokenKey .REFRESH) (loginExchange "code1" "ver1" respIdOnly []).2.1 =
      none ∧
    resp400Full.status_code = 400 ∧
    ((loginExchange "code1" "ver1" resp400Full []).1).isOk = true :=
  ⟨rfl, rfl, rfl, rfl, rfl, rfl⟩

/-- C4 as amended.  The exchange issues exactly one POST and never retries;
a response that is not application/json, or whose body lacks a required
token field, fails the attempt by an uncaught exception — but the slots
already decoded before the failure (identity first, then access, then
refresh) remain persisted, so a strict subset of the three entries can be
left for the next invocation; and the HTTP status is never consulted, so a
non-success response carrying all three valid fields is treated as
success. -/
theorem c4_exchange_amended (code ver : String) (resp : HttpResponse) (kr : Keyring) :
    (loginExchange code ver resp kr).2.2.length = 1 ∧
    (resp.content_type ≠ some "application/json" →
      ((loginExchange code ver resp kr).1).isOk = false ∧
      (loginExchange code ver resp kr).2.1 = kr) ∧
    (∀ f encI tI, resp.content_type = some "application/json" → resp.body = .obj f →
      f.lookup "id_token" = some (.str encI) → Token.mk? encI .ID = .ok tI →
      f.lookup "access_token" = none →
      ((loginExchange code ver resp kr).1).isOk = false ∧
      (loginExchange code ver resp kr).2.1 = tI.save kr) ∧
    (∀ f encI encA encR tI tA tR, resp.content_type = some "application/json" →
      resp.body = .obj f →
      f.lookup "id_token" = some (.str encI) → Token.mk? encI .ID = .ok tI →
      f.lookup "access_token" = some (.str encA) → Token.mk? encA .ACCESS = .ok tA →
      f.lookup "refresh_token" = some (.str encR) → Token.mk? encR .REFRESH = .ok tR →
      ((loginExchange code ver resp kr).1).isOk = true ∧
      (loginExchange code ver resp kr).2.1 = tR.save (tA.save (tI.save kr))) := by
  refine ⟨?_, ?_, ?_, ?_⟩
  · unfold loginExchange
    rcases hfr : Token.from_response resp true kr with ⟨rr, kr1⟩
    simp only [hfr]
    cases rr with
    | error e => rfl
    | ok trip => rfl
  · intro hct
    simp only [loginExchange, from_response_not_json resp true kr hct]
    exact ⟨rfl, trivial⟩
  · intro f encI tI hct hbody hI hmkI hA
    simp only [loginExchange,
      from_response_id_then_missing_access resp kr f encI tI hct hbody hI hmkI hA]
    exact ⟨rfl, trivial⟩
  · intro f encI encA encR tI tA tR hct hbody hI hmkI hA hmkA hR hmkR
    simp only [loginExchange,
      from_response_all_ok resp kr f encI encA encR tI tA tR hct hbody hI hmkI hA hmkA hR hmkR]
    exact ⟨rfl, trivial⟩

/-- Ground run of the amended C4: the id-only 200 response leaves exactly
the saved Identity entry behind while failing, and the 400 all-fields
response is accepted. -/
theorem c4_exchange_amended_witness :
    ((loginExchange "code1" "ver1" respIdOnly []).2.1 = idTok5000.save [] ∧
      ((loginExchange "code1" "ver1" respIdOnly []).1).isOk = false) ∧
    ((loginExchange "code1" "ver1" resp400Full []).1).isOk = true :=
  ⟨⟨((c4_exchange_amended "code1" "ver1" respIdOnly []).2.2.1
        [("id_token", .str jwtExp5000)] jwtExp5000 idTok5000 rfl rfl rfl rfl rfl).2,
    ((c4_exchange_amended "code1" "ver1" respIdOnly []).2.2.1
        [("id_token", .str jwtExp5000)] jwtExp5000 idTok5000 rfl rfl rfl rfl rfl).1⟩,
   ((c4_exchange_amended "code1" "ver1" resp400Full []).2.2.2
        [("id_token", .str jwtExp5000), ("access_token", .str jwtExp5000),
         ("refresh_token", .str jwtExp5000)]
        jwtExp5000 jwtExp5000 jwtExp5000 idTok5000 accTok5000 refTok5000
        rfl rfl rfl rfl rfl rfl rfl rfl).1⟩

/-! ## Claim C6: the redirect listener handler -/

/-- The RedirectHandler.do_GET variant in auth.py — an earlier draft of the
login flow that cli.py does not wire up — compares the request path to the
registered callback path exactly instead of by suffix. -/
def do_GET_exact (request_target : String) : GetEffect :=
  let u := urlparse request_target
  if u.path == registeredCallbackPath then
    match parse_qs_values u.query "code" with
    | c :: _ => deliverEffect c
    | [] => noEffect
  else noEffect

/-- The two handler drafts differ on a bare `/callback` probe: the exact
matcher in auth.py ignores it, while both deliver on the registered path. -/
theorem do_GET_exact_vs_suffix :
    do_GET_exact "/callback?code=abc123" = noEffect ∧
    do_GET_exact (registeredCallbackPath ++ "?code=abc123") = deliverEffect "abc123" :=
  ⟨rfl, rfl⟩

/-- C6 counterexample.  A GET for `/callback?code=abc123` — a path that is
not the registered callback path — is still acted on: the code is delivered,
a 200 text/html success page is sent, and shutdown is triggered.  The
handler matches any path ending in `/callback`, not the registered path. -/
theorem c6_counterexample_suffix_match :
    (urlparse "/callback?code=abc123").path = "/callback" ∧
    "/callback" ≠ registeredCallbackPath ∧
    do_GET "/callback?code=abc123" = deliverEffect "abc123" :=
  ⟨rfl, by decide, rfl⟩

/-- C6 as amended.  The handler acts exactly when the request path ends in
`/callback` and parse_qs finds a code parameter with a non-empty value: it
delivers the first code value, responds 200 with the text/html success body,
sets the code-ready event and starts the shutdown thread; for any other
path, or a matching path without such a code parameter, it does nothing at
all (not even a response). -/
theorem c6_redirect_handler_amended (rt : String) :
    ("/callback".data.isSuffixOf (urlparse rt).path.data = false → do_GET rt = noEffect) ∧
    (parse_qs_values (urlparse rt).query "code" = [] → do_GET rt = noEffect) ∧
    (∀ c rest, "/callback".data.isSuffixOf (urlparse rt).path.data = true →
      parse_qs_values (urlparse rt).query "code" = c :: rest →
      do_GET rt = deliverEffect c) := by
  refine ⟨?_, ?_, ?_⟩
  · intro h
    simp [do_GET, h]
  · intro h
    unfold do_GET
    cases hs : "/callback".data.isSuffixOf (urlparse rt).path.data with
    | false => simp [hs]
    | true => simp [hs, h]
  · intro c rest hs hc
    simp [do_GET, hs, hc]

/-- Ground run of the amended C6: a request to the registered callback path
with a code delivers it, and a request to a different path is ignored. -/
theorem c6_redirect_handler_amended_witness :
    do_GET (registeredCallbackPath ++ "?code=xyz") = deliverEffect "xyz" ∧
    do_GET "/probe?code=xyz" = noEffect :=
  ⟨(c6_redirect_handler_amended (registeredCallbackPath ++ "?code=xyz")).2.2 "xyz" [] rfl rfl,
   (c6_redirect_handler_amended "/probe?code=xyz").1 rfl⟩

end AvalancheCMS

